import Mathlib

/-!
Verification of the destination-path resolution, collision-avoidance and
folder-creation core of `google_drive_upload.py`, shallowly embedded in Lean.

Python strings are modelled as `String` (lists of characters), Python
dictionaries holding folder metadata as the structure `FolderInfo`, and
fallible Python code (exceptions such as IndexError, ValueError,
UnboundLocalError) as `Option`/`Except` results where `none`/`error`
marks the raised exception.
-/

namespace GoogleDriveUpload

/-- Folders in Google Drive have a special MIME type (module constant
`FOLDER_MIME_TYPE` in the source). -/
def FOLDER_MIME_TYPE : String := "application/vnd.google-apps.folder"

/-- Embeds the folder-description dictionaries built by the source
(keys `name`, `id`, `parent`, `type`). -/
structure FolderInfo where
  name : String
  id : String
  parent : String
  type : String
deriving Repr, DecidableEq

/-- Embeds `ROOT_FOLDER_INFO` and the per-drive variant built at the top of
`get_destination_info`: with no drive id the folder id is the magic string
`root`, with a drive id it is that id. -/
def local_root_folder_info (rootId : String) : FolderInfo :=
  ⟨"root", rootId, "root", FOLDER_MIME_TYPE⟩

/-! ### Python string primitives used by the source -/

/-- Models Python `str.replace(old, new)` for a single-character `old`
pattern, the only shape the source uses: every occurrence of the character
`c` is replaced by the character list `repl`. -/
def replaceChar (c : Char) (repl : List Char) : List Char → List Char
  | [] => []
  | x :: xs =>
      if x = c then repl ++ replaceChar c repl xs
      else x :: replaceChar c repl xs

/-- Index of the last occurrence of a character in a character list, or
`none`; the building block for the Python `str.rfind` used by
`os.path.splitext`. -/
def rfindIdx (c : Char) : List Char → Option Nat
  | [] => none
  | x :: xs =>
      match rfindIdx c xs with
      | some i => some (i + 1)
      | none => if x = c then some 0 else none

/-- Models Python `str.rfind`, which returns the last index of the
character or `-1` when it does not occur. -/
def pyRFind (cs : List Char) (c : Char) : Int :=
  match rfindIdx c cs with
  | some i => (i : Int)
  | none => -1

/-- Models `os.path.splitext` (CPython `genericpath._splitext` with
separator `/` and extension separator `.`): split at the last dot provided
it comes after the last path separator and at least one character between
them is not a dot, so that leading dots never start an extension. -/
def splitext (p : String) : String × String :=
  let cs := p.data
  let sepIndex := pyRFind cs '/'
  let dotIndex := pyRFind cs '.'
  if sepIndex < dotIndex then
    let filenameIndex := (sepIndex + 1).toNat
    let dotN := dotIndex.toNat
    if ((cs.drop filenameIndex).take (dotN - filenameIndex)).any (fun ch => ch != '.') then
      (String.mk (cs.take dotN), String.mk (cs.drop dotN))
    else (p, "")
  else (p, "")

/-- Models the Python slice `s[a:-1]`: the characters from index `a` up to
but excluding the final character; empty when the range is empty. -/
def pySlice (s : String) (a : Nat) : String :=
  String.mk ((s.data.take (s.data.length - 1)).drop a)

/-- Models Python `str.isdigit` restricted to ASCII input: true exactly on
a non-empty all-digit string. -/
def pyIsDigit (s : String) : Bool :=
  s.data.length != 0 && s.data.all Char.isDigit

/-- Models Python `max` on a list of integers: `none` stands for the
ValueError raised on an empty sequence. -/
def pyMax : List Nat → Option Nat
  | [] => none
  | x :: xs => some (xs.foldl Nat.max x)

/-- Models Python `int` on a string already known to consist of ASCII
digits: the base-ten value of the digit run. -/
def pyInt (s : String) : Nat :=
  s.data.foldl (fun acc c => acc * 10 + (c.toNat - 48)) 0

/-! ### Query-string escaping -/

/-- Embeds `escape_google_api_query_string`. The source is
`string.replace(chr(92), chr(92)*2).replace(chr(39), chr(92)+chr(39))`
written with literal escapes; crucially the second replacement is written
as a two-character Python literal that denotes just the quote character
itself, so the second `replace` maps a quote to a quote and is the
identity. -/
def escape_google_api_query_string (s : String) : String :=
  String.mk (replaceChar '\x27' ['\x27'] (replaceChar '\\' ['\\', '\\'] s.data))

/-- Modelled from the spec: the escaping the specification describes, in
which every single-quote character is backslash-escaped (a backslash
inserted before the quote) before being embedded in a query or body; kept
separate so it can be compared with the function the source actually
implements. -/
def escape_per_spec (s : String) : String :=
  String.mk (replaceChar '\x27' ['\\', '\x27'] (replaceChar '\\' ['\\', '\\'] s.data))

/-- Embeds the `name` field of the metadata body built by
`create_drive_folder`: the folder name is passed through
`escape_google_api_query_string` before being placed in the creation
request body. -/
def create_drive_folder_body_name (name : String) : String :=
  escape_google_api_query_string name

/-! ### Collision resolution (tail of `get_destination_info`) -/

/-- Embeds the per-file parsing step of the collision loop:
`os.path.splitext(name)[0][(len(file_name_base) + 2):-1]` followed by the
`isdigit` guard and `int` conversion; `none` when the slice is not a
non-empty digit string and the file therefore contributes no number. -/
def parse_collision_number (file_name_base : String) (name : String) : Option Nat :=
  let value := pySlice (splitext name).1 (file_name_base.length + 2)
  if pyIsDigit value then some (pyInt value) else none

/-- Embeds the collision-resolution tail of `get_destination_info`, taking
the names returned by the `name contains` listing query as input. With no
results the leaf is unchanged; with results the number starts at `1` and,
only when more than one file matched, is replaced by `max(numbers_list)+1`
over the parsed numbers — `none` models the ValueError `max` raises when
more than one file matched but no number parsed. -/
def prepare_destination_file_name (destination_file_name : String)
    (found_files : List String) : Option String :=
  let base_ext := splitext destination_file_name
  let file_name_base := base_ext.1
  let file_extension := base_ext.2
  if found_files.isEmpty then some destination_file_name
  else if found_files.length > 1 then
    let numbers_list := found_files.filterMap (parse_collision_number file_name_base)
    match pyMax numbers_list with
    | none => none
    | some m => some (file_name_base ++ " (" ++ toString (m + 1) ++ ")" ++ file_extension)
  else some (file_name_base ++ " (1)" ++ file_extension)

/-- Modelled from the spec: a stripped sibling name matches the collision
pattern exactly when it is the base, a space, an opening parenthesis, a
non-empty run of digits, and a closing parenthesis. -/
def name_matches_spec_pattern (base stripped : String) : Bool :=
  decide (stripped.data.take (base.length + 2) = (base ++ " (").data) &&
    decide (stripped.data.getLast? = some ')') &&
    pyIsDigit (pySlice stripped (base.length + 2))

/-! ### Remote tree walk (folder loop of `get_destination_info`) -/

/-- Embeds the parent-id expression of the folder loop of
`get_destination_info`: the root id at loop index zero and otherwise the
id of the folder appended at the previous index, which is the last element
of the accumulated present list. -/
def walk_parent (rootId : String) (folders_present : List FolderInfo) : String :=
  match folders_present.getLast? with
  | none => rootId
  | some f => f.id

/-- Embeds the folder loop of `get_destination_info`. The oracle `find`
stands for the `list_drive_files` call (the ids of the folder children of
the given parent carrying the given name, in returned order); the code
takes the first returned match, appends the matched folder to the present
list and continues, and at the first segment without a match it moves that
segment and every remaining segment to the missing list and breaks out of
the loop. Besides the present and missing lists the embedding also records
the (parent, name) pair of every listing query the loop issues. -/
def walk_go (find : String → String → List String) (rootId : String) :
    List String → List FolderInfo → List (String × String) →
    List FolderInfo × List String × List (String × String)
  | [], folders_present, queries => (folders_present, [], queries)
  | this_folder :: rest, folders_present, queries =>
      let parent := walk_parent rootId folders_present
      match (find parent this_folder).head? with
      | some foundId =>
          walk_go find rootId rest
            (folders_present ++ [⟨this_folder, foundId, parent, FOLDER_MIME_TYPE⟩])
            (queries ++ [(parent, this_folder)])
      | none => (folders_present, this_folder :: rest, queries ++ [(parent, this_folder)])

/-- Embeds the folder part of `get_destination_info` after the loop: when
folders are missing the function returns at once with the present and
missing lists as the loop left them; only when nothing is missing does an
empty present list get replaced by the local root descriptor. -/
def get_destination_info_folders (find : String → String → List String)
    (rootId : String) (parent_folders : List String) : List FolderInfo × List String :=
  let w := walk_go find rootId parent_folders [] []
  let folders_present := w.1
  let folders_missing := w.2.1
  if folders_missing.isEmpty then
    (if folders_present.isEmpty then [local_root_folder_info rootId] else folders_present, [])
  else (folders_present, folders_missing)

/-! ### Folder creation -/

/-- Embeds `create_missing_drive_folders`. The oracle `create` stands for
`create_drive_folder` (parent id and name to new folder id). The Python
function pops the head off the caller-aliased `folders_to_make` list,
creates that folder, and recurses on the remainder with the new id as
parent; the second component of the result is the final contents of the
aliased input list, and `none` models the IndexError `pop` raises on an
empty list. -/
def create_missing_drive_folders (create : String → String → String)
    (parent : String) : List String → Option (FolderInfo × List String)
  | [] => none
  | folder_name :: folders_to_make =>
      let folder_id := create parent folder_name
      if folders_to_make.isEmpty then
        some (⟨folder_name, folder_id, parent, FOLDER_MIME_TYPE⟩, folders_to_make)
      else create_missing_drive_folders create folder_id folders_to_make

/-- Embeds the parent-folder selection in `main` after
`get_destination_info` returns: with missing folders it creates them
starting from the id of the last element of `folders_present`, and `none`
models the IndexError raised by indexing the last element of an empty
list; otherwise the parent is the last present folder itself. -/
def main_parent_folder (create : String → String → String)
    (folders_present : List FolderInfo) (folders_missing : List String) :
    Option FolderInfo :=
  if folders_missing.isEmpty then folders_present.getLast?
  else
    match folders_present.getLast? with
    | none => none
    | some lastPresent =>
        (create_missing_drive_folders create lastPresent.id folders_missing).map Prod.fst

/-! ### MIME-type guessing (from `get_source_file_info`) -/

/-- Models a Python value that is either a string or a pair as returned by
`mimetypes.guess_type` (guessed type and encoding, each possibly None). -/
inductive PyVal where
  | str (s : String)
  | tup (a b : Option String)
deriving Repr, DecidableEq

/-- Models Python truthiness for the two value shapes involved: a string
is truthy when non-empty, and a pair, being a tuple of two elements, is
always truthy. -/
def pyTruthy : PyVal → Bool
  | .str s => s.data.length != 0
  | .tup _ _ => true

/-- Models the Python `or` operator: the left operand when truthy,
otherwise the right operand. -/
def pyOr (x y : PyVal) : PyVal :=
  if pyTruthy x then x else y

/-- Embeds the assignment in `get_source_file_info` that computes
`guessed_mime_type`. The oracle `guess_type` stands for
`mimetypes.guess_type`, which always returns a pair. By Python operator
precedence the right-hand side is the pair consisting of
`guess_type(path) or octet-stream-literal` and `None`, and the
destructuring assignment binds `guessed_mime_type` to its first
component. -/
def guessed_mime_type (guess_type : String → Option String × Option String)
    (path : String) : PyVal :=
  pyOr (PyVal.tup (guess_type path).1 (guess_type path).2)
    (PyVal.str "application/octet-stream")

/-! ### Upload (from `upload_drive_file`) -/

/-- Models the exceptions relevant to `upload_drive_file`: the HttpError
its handler catches, the UnboundLocalError raised by reading the local
variable `result` after that handler, and any other exception. -/
inductive PyExn where
  | httpError
  | unboundLocal
  | other (s : String)
deriving Repr, DecidableEq

/-- Models Python `dict.get` on a string-valued response dictionary. -/
def dict_get (d : List (String × String)) (k : String) : Option String :=
  (d.find? (fun kv => kv.1 = k)).map Prod.snd

/-- Embeds `upload_drive_file` as a function of the outcome of the
`files().create(...).execute()` call. On success it returns
`result.get(id)`. When the call raises HttpError the handler logs and
falls through, and the subsequent read of the unassigned local `result`
raises UnboundLocalError; any other exception propagates unchanged.
Either way a failing call ends in an exception, never a return value. -/
def upload_drive_file (callResult : Except PyExn (List (String × String))) :
    Except PyExn (Option String) :=
  match callResult with
  | .ok result => .ok (dict_get result "id")
  | .error .httpError => .error .unboundLocal
  | .error e => .error e

/-! ### Helper lemmas -/

/-- Slicing the stripped pattern string at the positions the collision loop
uses returns exactly the digit run: the Python slice from index
`len(base) + 2` to the last character of `base ++ " (" ++ ds ++ ")"`
is `ds`. -/
lemma pySlice_pattern (base ds : String) :
    pySlice (base ++ " (" ++ ds ++ ")") (base.length + 2) = ds := by
  cases base with | mk b =>
  cases ds with | mk d =>
  have hdata : ((String.mk b ++ " (" ++ String.mk d ++ ")") : String).data
      = b ++ ' ' :: '(' :: (d ++ [')']) := by
    simp [String.data_append]
  have h1 : b ++ ' ' :: '(' :: (d ++ [')']) = (b ++ ' ' :: '(' :: d) ++ [')'] := by
    simp
  have h2 : ((b ++ ' ' :: '(' :: d) ++ [')']).length - 1
      = (b ++ ' ' :: '(' :: d).length := by
    simp
  have h3 : b ++ ' ' :: '(' :: d = (b ++ [' ', '(']) ++ d := by
    simp
  have h4 : b.length + 2 = ((b ++ [' ', '(']) : List Char).length := by
    simp
  have key : ((b ++ ' ' :: '(' :: (d ++ [')'])).take
        ((b ++ ' ' :: '(' :: (d ++ [')'])).length - 1)).drop (b.length + 2) = d := by
    rw [h1, h2, List.take_left, h3, h4, List.drop_left]
  simp only [pySlice, hdata, String.length]
  exact congrArg String.mk key

/-! ### Claim theorems -/

/-- C1: the claim says that with a non-empty segment list whose first
segment has no remote match (present folders empty, missing folders the
full segment list) the orchestrator runs the folder creator starting from
the root id. In the code, resolution indeed returns an empty present list
and the full missing list, but the parent selection in `main` indexes the
last element of the empty present list and raises IndexError (modelled as
`none`), so the folder creator is never started — even though running it
from the root id, as the claim states, would have succeeded and produced
the folder under the root. -/
theorem C1_first_segment_missing_crashes (create : String → String → String) :
    get_destination_info_folders (fun _ _ => []) "root" ["A"] = ([], ["A"]) ∧
    main_parent_folder create [] ["A"] = none ∧
    (create_missing_drive_folders create "root" ["A"]).map Prod.fst
      = some ⟨"A", create "root" "A", "root", FOLDER_MIME_TYPE⟩ := by
  refine ⟨by decide, ?_, ?_⟩
  · simp [main_parent_folder]
  · simp [create_missing_drive_folders]

/-- C2: the claim says a single-quote character in a segment name is
backslash-escaped before being embedded in outgoing queries or bodies. In
the code the quote-replacement step of `escape_google_api_query_string`
maps a quote to itself, so the name is embedded with its quote unescaped;
the spec-described escaping would have inserted a backslash. -/
theorem C2_quote_not_escaped :
    escape_google_api_query_string "O\x27Brien" = "O\x27Brien" ∧
    create_drive_folder_body_name "O\x27Brien" = "O\x27Brien" ∧
    escape_per_spec "O\x27Brien" = "O\\\x27Brien" ∧
    escape_google_api_query_string "O\x27Brien" ≠ escape_per_spec "O\x27Brien" := by
  decide

/-- C3 counterexample: with the single sibling name `report.pdf` the code
does not return `report (2).pdf`. -/
theorem C3_counterexample :
    prepare_destination_file_name "report.pdf" ["report.pdf"]
      ≠ some "report (2).pdf" := by
  decide

/-- C3 (amended): with the single sibling name `report.pdf` the code
returns `report (1).pdf`, because the numbering loop runs only when more
than one file matched and the number therefore stays at its initial
value 1. -/
theorem C3_single_match_gives_one :
    prepare_destination_file_name "report.pdf" ["report.pdf"]
      = some "report (1).pdf" := by
  decide

/-- C5: the claim says an undetermined MIME type falls back to the generic
binary type and the recorded MIME type is a string guessed from the name.
In the code the `or` fallback is applied to the whole pair returned by
`mimetypes.guess_type`, which is always truthy, so the recorded value is
always that pair — for an undetermined file the pair of two Nones — and
never any string at all. -/
theorem C5_mime_is_tuple_never_string :
    guessed_mime_type (fun _ => (none, none)) "report.xyz" = PyVal.tup none none ∧
    ∀ (guess_type : String → Option String × Option String) (path s : String),
      guessed_mime_type guess_type path ≠ PyVal.str s := by
  refine ⟨rfl, ?_⟩
  intro gt p s h
  simp [guessed_mime_type, pyOr, pyTruthy] at h

/-- C6: whenever the upload call fails, `upload_drive_file` ends in an
exception — an HttpError is caught but the following read of the
unassigned local raises UnboundLocalError, and any other exception
propagates — so a failing upload never yields a success-shaped result. -/
theorem C6_upload_failure_never_success (e : PyExn) (v : Option String) :
    upload_drive_file (Except.error e) ≠ Except.ok v := by
  cases e <;> simp [upload_drive_file]

/-- C10: `create_missing_drive_folders` consumes the caller-aliased list
of missing folder names one element at a time from the front, so after a
successful run on a non-empty list the final contents of that list are
empty. -/
theorem C10_folder_list_emptied (create : String → String → String)
    (parent : String) (folders_to_make : List String)
    (h : folders_to_make ≠ []) :
    ∃ info, create_missing_drive_folders create parent folders_to_make
      = some (info, []) := by
  induction folders_to_make generalizing parent with
  | nil => exact absurd rfl h
  | cons a t ih =>
    cases t with
    | nil => exact ⟨⟨a, create parent a, parent, FOLDER_MIME_TYPE⟩, rfl⟩
    | cons b u =>
      obtain ⟨info, hinfo⟩ := ih (create parent a) (by simp)
      exact ⟨info, hinfo⟩

/-- C10 witness: a concrete successful run over two missing segments ends
with the aliased list empty. -/
theorem C10_folder_list_emptied_witness :
    ∃ info, create_missing_drive_folders (fun p n => String.append p n)
      "root" ["B", "C"] = some (info, []) :=
  C10_folder_list_emptied (fun p n => String.append p n) "root" ["B", "C"]
    (by decide)

/-- Invariant of the folder loop: from any accumulated state there is a
matched-prefix length k such that the present names extend the accumulator
by the first k segments, the missing list is the remaining suffix, and the
issued queries cover exactly the matched segments plus the first missing
one. -/
lemma walk_go_split (find : String → String → List String) (rootId : String) :
    ∀ (segs : List String) (present : List FolderInfo)
      (queries : List (String × String)),
      ∃ k, k ≤ segs.length ∧
        (walk_go find rootId segs present queries).1.map FolderInfo.name
          = present.map FolderInfo.name ++ segs.take k ∧
        (walk_go find rootId segs present queries).2.1 = segs.drop k ∧
        (walk_go find rootId segs present queries).2.2.map Prod.snd
          = queries.map Prod.snd ++ segs.take (min (k + 1) segs.length) := by
  intro segs
  induction segs with
  | nil =>
    intro present queries
    exact ⟨0, by simp [walk_go]⟩
  | cons seg rest ih =>
    intro present queries
    cases hfind : (find (walk_parent rootId present) seg).head? with
    | none =>
      refine ⟨0, by simp, ?_, ?_, ?_⟩ <;>
        simp [walk_go, hfind, Nat.succ_min_succ]
    | some foundId =>
      obtain ⟨k, hk, h1, h2, h3⟩ :=
        ih (present ++ [⟨seg, foundId, walk_parent rootId present, FOLDER_MIME_TYPE⟩])
          (queries ++ [(walk_parent rootId present, seg)])
      refine ⟨k + 1, by simp only [List.length_cons]; omega, ?_, ?_, ?_⟩ <;>
        simp [walk_go, hfind, h1, h2, h3, Nat.succ_min_succ]

/-- C9: for every oracle and segment list the walker matches an initial
prefix of the segments in order (the present names are the first k
segments), the missing list is exactly the remaining suffix starting at
the first unmatched segment, and the issued queries are one per matched
segment plus one for the first missing segment — none for any later
segment; and on the concrete example with segments A, B, C where A exists
under the root and B is absent under A, the result is present folder A,
missing B and C, and queries only for A under the root and B under A,
never for C. -/
theorem C9_walker_prefix_and_stops :
    (∀ (find : String → String → List String) (rootId : String)
        (segs : List String),
      ∃ k, k ≤ segs.length ∧
        (walk_go find rootId segs [] []).1.map FolderInfo.name = segs.take k ∧
        (walk_go find rootId segs [] []).2.1 = segs.drop k ∧
        (walk_go find rootId segs [] []).2.2.map Prod.snd
          = segs.take (min (k + 1) segs.length)) ∧
    walk_go (fun p n => if p = "root" && n = "A" then ["idA"] else [])
        "root" ["A", "B", "C"] [] []
      = ([⟨"A", "idA", "root", FOLDER_MIME_TYPE⟩], ["B", "C"],
          [("root", "A"), ("idA", "B")]) ∧
    ("idA", "C") ∉ (walk_go (fun p n => if p = "root" && n = "A" then ["idA"] else [])
        "root" ["A", "B", "C"] [] []).2.2 := by
  refine ⟨?_, by decide, by decide⟩
  intro find rootId segs
  simpa using walk_go_split find rootId segs [] []

/-- C4 counterexample: two siblings match (both contain the base) and
neither parses, yet the resolver does not fall back to number 1 — the
model returns `none`, the ValueError raised by taking the maximum of the
empty number list. -/
theorem C4_counterexample :
    parse_collision_number "report" "report.pdf" = none ∧
    parse_collision_number "report" "reportage.pdf" = none ∧
    prepare_destination_file_name "report.pdf" ["report.pdf", "reportage.pdf"] = none ∧
    prepare_destination_file_name "report.pdf" ["report.pdf", "reportage.pdf"]
      ≠ some "report (1).pdf" := by
  decide

/-- C4 (amended): the fallback to number 1 happens exactly when a single
sibling matched, in which case the numbering loop is skipped entirely;
when two or more siblings match and none of their names parses to a
number, the code instead fails with the ValueError of taking the maximum
of an empty list. -/
theorem C4_fallback_only_single_match (dest : String)
    (found1 found2 : List String)
    (h1 : found1.length = 1) (h2 : 2 ≤ found2.length)
    (hp : found2.filterMap (parse_collision_number (splitext dest).1) = []) :
    prepare_destination_file_name dest found1
      = some ((splitext dest).1 ++ " (1)" ++ (splitext dest).2) ∧
    prepare_destination_file_name dest found2 = none := by
  constructor
  · match found1, h1 with
    | [a], _ => simp [prepare_destination_file_name]
  · obtain ⟨a, t, rfl⟩ : ∃ a t, found2 = a :: t := by
      cases found2 with
      | nil => simp at h2
      | cons a t => exact ⟨a, t, rfl⟩
    have hgt : (a :: t).length > 1 := h2
    have ht : t ≠ [] := by
      intro hh
      subst hh
      simp at hgt
    simp [prepare_destination_file_name, hgt, ht, hp, pyMax]

/-- C4 amended witness: a single matching sibling yields the number 1,
while two matching siblings with no parsable number yield the error. -/
theorem C4_fallback_only_single_match_witness :
    prepare_destination_file_name "report.pdf" ["report.pdf"]
      = some ((splitext "report.pdf").1 ++ " (1)" ++ (splitext "report.pdf").2) ∧
    prepare_destination_file_name "report.pdf" ["report.pdf", "reportage.pdf"]
      = none :=
  C4_fallback_only_single_match "report.pdf" ["report.pdf"]
    ["report.pdf", "reportage.pdf"] (by decide) (by decide) (by decide)

/-- C7 counterexample: the single matching sibling parses as the pattern
with number 5, but the code returns number 1, not max plus one. -/
theorem C7_counterexample :
    parse_collision_number "report" "report (5).pdf" = some 5 ∧
    prepare_destination_file_name "report.pdf" ["report (5).pdf"]
      = some "report (1).pdf" ∧
    prepare_destination_file_name "report.pdf" ["report (5).pdf"]
      ≠ some "report (6).pdf" := by
  decide

/-- C7 (amended): only when two or more siblings match does the code take
the maximum of the numbers parsed by its positional extraction and add
one; with exactly one matching sibling the number is always 1 regardless
of how that name parses. -/
theorem C7_max_plus_one_needs_two_matches (dest : String)
    (found : List String) (m : Nat)
    (h2 : 2 ≤ found.length)
    (hm : pyMax (found.filterMap (parse_collision_number (splitext dest).1))
      = some m) :
    prepare_destination_file_name dest found
      = some ((splitext dest).1 ++ " (" ++ toString (m + 1) ++ ")"
          ++ (splitext dest).2) := by
  obtain ⟨a, t, rfl⟩ : ∃ a t, found = a :: t := by
    cases found with
    | nil => simp at h2
    | cons a t => exact ⟨a, t, rfl⟩
  have hgt : (a :: t).length > 1 := h2
  have ht : t ≠ [] := by
    intro hh
    subst hh
    simp at hgt
  simp [prepare_destination_file_name, hgt, ht, hm]

/-- C7 amended witness: the report example of the claim, with siblings
`report.pdf` and `report (2).pdf`, yields `report (3).pdf`. -/
theorem C7_max_plus_one_needs_two_matches_witness :
    prepare_destination_file_name "report.pdf" ["report.pdf", "report (2).pdf"]
      = some ((splitext "report.pdf").1 ++ " (" ++ toString (2 + 1) ++ ")"
          ++ (splitext "report.pdf").2) ∧
    prepare_destination_file_name "report.pdf" ["report.pdf", "report (2).pdf"]
      = some "report (3).pdf" :=
  ⟨C7_max_plus_one_needs_two_matches "report.pdf"
      ["report.pdf", "report (2).pdf"] 2 (by decide) (by decide),
    by decide⟩

/-- C8 counterexample: the sibling name `reportX(3).pdf` is not of the
shape base, space, parenthesis, integer, parenthesis for base `report`,
yet it contributes the integer 3 — the extraction is positional, not a
pattern match — and that contribution changes the final name to
`report (4).pdf`. -/
theorem C8_counterexample :
    parse_collision_number "report" "reportX(3).pdf" = some 3 ∧
    name_matches_spec_pattern "report" (splitext "reportX(3).pdf").1 = false ∧
    prepare_destination_file_name "report.pdf" ["report.pdf", "reportX(3).pdf"]
      = some "report (4).pdf" := by
  decide

/-- C8 (amended): the number collected from a sibling is the digit run the
positional slice extracts. Every name whose stripped form is exactly base,
space, opening parenthesis, digits, closing parenthesis contributes its
number, but names of other shapes can contribute as well, as the parse of
`reportX(3).pdf` against base `report` shows. -/
theorem C8_pattern_names_contribute_but_not_only :
    (∀ (base name ds : String),
        (splitext name).1 = base ++ " (" ++ ds ++ ")" →
        pyIsDigit ds = true →
        parse_collision_number base name = some (pyInt ds)) ∧
    ∃ base name, (parse_collision_number base name).isSome = true ∧
      name_matches_spec_pattern base (splitext name).1 = false := by
  constructor
  · intro base name ds hsplit hds
    simp only [parse_collision_number]
    rw [hsplit, pySlice_pattern]
    simp [hds]
  · exact ⟨"report", "reportX(3).pdf", by decide, by decide⟩

/-- C8 amended witness: the pattern-shaped sibling `report (2).pdf`
contributes the number parsed from its digit run. -/
theorem C8_pattern_names_contribute_witness :
    parse_collision_number "report" "report (2).pdf" = some (pyInt "2") :=
  C8_pattern_names_contribute_but_not_only.1 "report" "report (2).pdf" "2"
    (by decide) (by decide)

end GoogleDriveUpload
